import Mathlib

/-!
Verification of the sever-test realtime chat client against its
specification. The definitions below are a shallow embedding of the
TypeScript sources `src/frontend/src/hooks/useWebRTC.ts` and
`src/frontend/src/components/AgentChat.tsx`: JSON payload records become
Lean structures with `Option` fields (a missing JSON field is `none`),
JavaScript string truthiness becomes `strTruthy`, and the stateful event
handlers become pure state-transition functions.
-/

namespace SeverTest

/-- JavaScript's `String.prototype.trim()`: strip leading and trailing
whitespace. Modelled over the character list (Lean's built-in
`String.trim` is not kernel-reducible, which the concrete evaluations
below require). -/
def jsTrim (s : String) : String :=
  String.mk (((s.data.dropWhile Char.isWhitespace).reverse.dropWhile Char.isWhitespace).reverse)

/-- Whether the second list is a prefix of the first (helper for
`jsIncludes`). -/
def hasPrefixSeq : List Char → List Char → Bool
  | _, [] => true
  | [], _ :: _ => false
  | c :: cs, p :: ps => c == p && hasPrefixSeq cs ps

/-- Whether the second list occurs contiguously in the first (helper for
`jsIncludes`). -/
def hasSubSeq : List Char → List Char → Bool
  | [], pat => hasPrefixSeq [] pat
  | c :: cs, pat => hasPrefixSeq (c :: cs) pat || hasSubSeq cs pat

/-- JavaScript's `String.prototype.includes(pat)`. -/
def jsIncludes (s pat : String) : Bool :=
  hasSubSeq s.data pat.data

/-- JavaScript truthiness of an optional string field: an absent field
(`undefined`) and the empty string are both falsy. -/
def strTruthy : Option String → Bool
  | some s => s != ""
  | none => false

/-- A transcript message as reported by the hook's `onTranscript` callback /
appended by `AgentChat.addMessage`: a role tag and the text. -/
structure Msg where
  role : String
  text : String
deriving DecidableEq

/-- One content part of a history item: `{type, text?, transcript?}`
(§6 of the spec; `item.content[i]` in the sources). -/
structure ContentPart where
  type : Option String := none
  text : Option String := none
  transcript : Option String := none
deriving DecidableEq

/-- A history item `{item_id, type, role, content}` as consumed by
`processHistoryItem` and the `history_*` branches. -/
structure HistoryItem where
  item_id : Option String := none
  type : Option String := none
  role : Option String := none
  content : Option (List ContentPart) := none
deriving DecidableEq

/-- `item.role === "user" ? "user" : "ai"` (useWebRTC.ts lines 167, 170). -/
def itemRole (item : HistoryItem) : String :=
  if item.role = some "user" then "user" else "ai"

/-- The per-part branch of `processHistoryItem` (useWebRTC.ts lines 165-173):
`if (content.transcript && content.transcript.trim()) emit transcript;
else if (content.text && content.text.trim()) emit text`. At most one
message per part; the emitted text is the raw (untrimmed) field value. -/
def processContent (role : String) (c : ContentPart) : Option Msg :=
  if strTruthy c.transcript = true ∧ jsTrim (c.transcript.getD "") ≠ "" then
    some ⟨role, c.transcript.getD ""⟩
  else if strTruthy c.text = true ∧ jsTrim (c.text.getD "") ≠ "" then
    some ⟨role, c.text.getD ""⟩
  else
    none

/-- `processHistoryItem` (useWebRTC.ts lines 163-175): guarded by
`item.type === "message" && item.content` (a present array is truthy even
when empty), then one `onTranscript` call per qualifying content part. -/
def processHistoryItem (item : HistoryItem) : List Msg :=
  if item.type = some "message" ∧ item.content.isSome then
    (item.content.getD []).filterMap (processContent (itemRole item))
  else
    []

/-- An inbound WebSocket JSON payload as dispatched by the hook's
`ws.onmessage` (useWebRTC.ts lines 37-104). Audio payload bytes are not
modelled here: the `audio` branch never touches the reconciler state
(the playback queue is modelled separately below). -/
structure WsData where
  type : String
  last_assistant_message : Option String := none
  history : Option (List HistoryItem) := none
  item : Option HistoryItem := none
deriving DecidableEq

/-- The `forEach` loop of the `history_updated` branch (useWebRTC.ts
lines 72-80): for each item whose `item_id` is truthy and not yet in the
processed set, run `processHistoryItem` and add the id to the set.
Returns the updated seen set and the emitted messages, in order. -/
def scanHistory : List String → List HistoryItem → List String × List Msg
  | seen, [] => (seen, [])
  | seen, it :: rest =>
    if strTruthy it.item_id = true ∧ ¬ seen.contains (it.item_id.getD "") then
      let msgs := processHistoryItem it
      let next := scanHistory (seen ++ [it.item_id.getD ""]) rest
      (next.1, msgs ++ next.2)
    else
      scanHistory seen rest

/-- The hook's `ws.onmessage` dispatch restricted to its reconciler effect
(useWebRTC.ts lines 37-104): given the current Seen-Item-Id set and one
parsed payload, return the new seen set and the emitted messages. The
`audio` and `error` branches fall through to the catch-all: neither emits
transcripts nor touches the seen set. -/
def wsHandle (seen : List String) (d : WsData) : List String × List Msg :=
  if d.type = "history_updated" then
    if strTruthy d.last_assistant_message = true then
      (seen, [⟨"ai", d.last_assistant_message.getD ""⟩])
    else
      match d.history with
      | some hs => scanHistory seen hs
      | none => (seen, [])
  else if d.type = "history_added" then
    match d.item with
    | some it =>
      if strTruthy it.item_id = true ∧ ¬ seen.contains (it.item_id.getD "") then
        (seen ++ [it.item_id.getD ""], processHistoryItem it)
      else
        (seen, [])
    | none => (seen, [])
  else if d.type = "history_loaded" then
    match d.history with
    | some hs => (seen, hs.flatMap processHistoryItem)
    | none => (seen, [])
  else
    (seen, [])

/-- The hook's `ws.onmessage` over a whole inbound stream. `none` stands
for a frame whose `JSON.parse` throws: useWebRTC.ts line 38 has no
try/catch, so that handler invocation raises (counted in the third
component); the socket keeps delivering, so later frames are still
processed with unchanged state. -/
def wsProcessAll : List String → List (Option WsData) → List String × List Msg × Nat
  | seen, [] => (seen, [], 0)
  | seen, none :: rest =>
    let r := wsProcessAll seen rest
    (r.1, r.2.1, r.2.2 + 1)
  | seen, some d :: rest =>
    let r1 := wsHandle seen d
    let r := wsProcessAll r1.1 rest
    (r.1, r1.2 ++ r.2.1, r.2.2)

/-- An inbound event as dispatched by `AgentChat.handleAgentEvent`
(AgentChat.tsx lines 86-292). One open record with optional fields mirrors
the untyped `AgentEvent` interface. The `audio` field (base64 bytes) is
not modelled: its branch only plays audio, never touching the chat state. -/
structure AgentEvent where
  type : String
  text : Option String := none
  tool : Option String := none
  last_assistant_message : Option String := none
  history : Option (List HistoryItem) := none
  item : Option HistoryItem := none
  delta : Option String := none
  transcript : Option String := none
  raw_event : Option String := none
  error : Option String := none
deriving DecidableEq

/-- The chat component's reconciler state: the finalized message log, the
streaming `currentAssistantMessage` (the Pending Partial Message), and the
`agentStatus` string. -/
structure ChatState where
  messages : List Msg
  currentAssistantMessage : String
  agentStatus : String
deriving DecidableEq

/-- The substring that `addMessage` filters out (AgentChat.tsx line 381). -/
def contextMarker : String := "Previous conversation context"

/-- `addMessage` (AgentChat.tsx lines 379-396): appends a message unless the
content includes the context marker substring, in which case the log is left
unchanged. `content.includes(pat)` is modelled by `jsIncludes`. -/
def addMessage (st : ChatState) (role content : String) : ChatState :=
  if jsIncludes content contextMarker = true then
    st
  else
    { st with messages := st.messages ++ [⟨role, content⟩] }

/-- The per-part extractor of the `history_updated`/`history_added`
assistant branches (AgentChat.tsx lines 144-150 and 176-190):
typed text, then typed audio transcript, then any text, then any
transcript, else the empty string. -/
def chatExtract (c : ContentPart) : String :=
  if c.type = some "text" ∧ strTruthy c.text = true then c.text.getD ""
  else if c.type = some "audio" ∧ strTruthy c.transcript = true then c.transcript.getD ""
  else if strTruthy c.text = true then c.text.getD ""
  else if strTruthy c.transcript = true then c.transcript.getD ""
  else ""

/-- `.map(extract).filter(t => t.length > 0).join(" ")` of the assistant
branches (AgentChat.tsx lines 143-152, 175-192). -/
def joinExtracts (parts : List ContentPart) : String :=
  String.intercalate " " ((parts.map chatExtract).filter (fun t => t.length > 0))

/-- The per-part extractor of the `history_added` user branch
(AgentChat.tsx line 203): `c.text || c.transcript || ""`. -/
def chatExtractUser (c : ContentPart) : String :=
  if strTruthy c.text = true then c.text.getD ""
  else if strTruthy c.transcript = true then c.transcript.getD ""
  else ""

/-- `.map(c => c.text || c.transcript || "").filter(...).join(" ")` of the
`history_added` user branch (AgentChat.tsx lines 202-205). -/
def joinExtractsUser (parts : List ContentPart) : String :=
  String.intercalate " " ((parts.map chatExtractUser).filter (fun t => t.length > 0))

/-- `handleAgentEvent` (AgentChat.tsx lines 86-292), as a transition on
`ChatState`. Branch-by-branch translation of the switch. The `audio`
branch (plays a chunk), the inner JSON parse of `tool_end`'s output and
the default logging leave the chat state unchanged and are modelled as
identity on the fields below.

React closure semantics: the `ws.onmessage` handler is installed once by
the mount effect (AgentChat.tsx lines 32-43), so the installed
`handleAgentEvent` permanently closes over the FIRST render's state.
Plain reads of `currentAssistantMessage` (the `response.text.done`,
`response.audio_transcript.done` and `raw_model_event` transcript_done
branches) and of `messages` (the `history_added` user-dedup check)
therefore see that stale snapshot, modelled by the `stale` parameter;
only the functional updaters `set...((prev) => ...)` — the delta appends
and `addMessage`'s `setMessages` — operate on the live state `st`, and
the non-functional setters write constants. -/
def handleAgentEvent (stale st : ChatState) (e : AgentEvent) : ChatState :=
  if e.type = "debug_text" then
    addMessage st "system" (e.text.getD "undefined")
  else if e.type = "agent_start" then
    { st with agentStatus := "Thinking..." }
  else if e.type = "agent_end" then
    { st with agentStatus := "Ready" }
  else if e.type = "tool_start" then
    addMessage { st with agentStatus := "Using tool: " ++ e.tool.getD "undefined" }
      "system" ("🔧 Calling function: " ++ e.tool.getD "undefined")
  else if e.type = "tool_end" then
    { st with agentStatus := "Processing..." }
  else if e.type = "audio_end" then
    { st with agentStatus := "Ready" }
  else if e.type = "history_updated" then
    if strTruthy e.last_assistant_message = true then
      let st1 := addMessage st "assistant" (e.last_assistant_message.getD "")
      { st1 with currentAssistantMessage := "" }
    else
      match e.history with
      | some hs =>
        match hs.getLast? with
        | some lastItem =>
          if lastItem.role = some "assistant" ∧ lastItem.content.isSome then
            let content := joinExtracts (lastItem.content.getD [])
            if content ≠ "" ∧ jsTrim content ≠ "" then
              let st1 := addMessage st "assistant" content
              { st1 with currentAssistantMessage := "" }
            else
              st
          else
            st
        | none => st
      | none => st
  else if e.type = "history_added" then
    if strTruthy e.text = true then
      let st1 := addMessage st "assistant" (e.text.getD "")
      { st1 with currentAssistantMessage := "" }
    else
      match e.item with
      | some it =>
        if it.role = some "assistant" then
          match it.content with
          | some parts =>
            let content := joinExtracts parts
            if content ≠ "" ∧ jsTrim content ≠ "" then
              let st1 := addMessage st "assistant" content
              { st1 with currentAssistantMessage := "" }
            else
              st
          | none => st
        else if it.role = some "user" then
          match it.content with
          | some parts =>
            let content := joinExtractsUser parts
            if content ≠ "" ∧ jsTrim content ≠ "" then
              match stale.messages.getLast? with
              | none => addMessage st "user" content
              | some lastMessage =>
                if lastMessage.text ≠ content then addMessage st "user" content
                else st
            else
              st
          | none => st
        else
          st
      | none => st
  else if e.type = "response.text.delta" then
    if strTruthy e.delta = true then
      { st with currentAssistantMessage := st.currentAssistantMessage ++ e.delta.getD "" }
    else
      st
  else if e.type = "response.text.done" then
    if stale.currentAssistantMessage ≠ "" then
      let st1 := addMessage st "assistant" stale.currentAssistantMessage
      { st1 with currentAssistantMessage := "" }
    else
      st
  else if e.type = "response.audio_transcript.delta" then
    if strTruthy e.delta = true then
      { st with currentAssistantMessage := st.currentAssistantMessage ++ e.delta.getD "" }
    else
      st
  else if e.type = "response.audio_transcript.done" then
    if strTruthy e.transcript = true ∨ stale.currentAssistantMessage ≠ "" then
      let finalText :=
        if strTruthy e.transcript = true then e.transcript.getD ""
        else stale.currentAssistantMessage
      if finalText ≠ "" then
        let st1 := addMessage st "assistant" finalText
        { st1 with currentAssistantMessage := "" }
      else
        st
    else
      st
  else if e.type = "raw_model_event" then
    if e.raw_event = some "transcript_delta" then
      if strTruthy e.delta = true then
        { st with currentAssistantMessage := st.currentAssistantMessage ++ e.delta.getD "" }
      else
        st
    else if e.raw_event = some "transcript_done" then
      if strTruthy e.transcript = true ∨ stale.currentAssistantMessage ≠ "" then
        let finalText :=
          if strTruthy e.transcript = true then e.transcript.getD ""
          else stale.currentAssistantMessage
        if finalText ≠ "" then
          let st1 := addMessage st "assistant" finalText
          { st1 with currentAssistantMessage := "" }
        else
          st
      else
        st
    else
      st
  else if e.type = "error" then
    addMessage { st with agentStatus := "Error" }
      "system" ("❌ Error: " ++ e.error.getD "undefined")
  else
    st

/-- The chat component's initial state (AgentChat.tsx lines 17-24:
`useState<Message[]>([])`, `useState<string>("")`,
`useState<string>("Disconnected")`). This is also the stale snapshot the
installed `ws.onmessage` handler closes over, since it is created on the
first render. -/
def chatInit : ChatState :=
  ⟨[], "", "Disconnected"⟩

/-- The chat component's `ws.onmessage` over a whole inbound stream
(AgentChat.tsx lines 73-81). Every frame is handled by the one handler
installed at mount, whose stale snapshot is `chatInit`. `none` stands
for a frame whose `JSON.parse` throws: the try/catch logs it and drops
the single frame, so the state is unchanged and processing continues. -/
def chatProcess : ChatState → List (Option AgentEvent) → ChatState
  | st, [] => st
  | st, none :: rest => chatProcess st rest
  | st, some e :: rest => chatProcess (handleAgentEvent chatInit st e) rest

/-- The playback machinery's state (useWebRTC.ts refs `audioQueueRef`,
`isPlayingRef`, `playbackAudioContextRef`), plus a log of the order in
which buffers were started (`source.start()` calls). Buffers are
identified by `Nat` labels. -/
structure PlayerState where
  audioQueue : List Nat
  isPlaying : Bool
  hasPlaybackContext : Bool
  started : List Nat
deriving DecidableEq

/-- `playNextInQueue` (useWebRTC.ts lines 275-308): if the queue is empty
or no playback context exists, set `isPlaying` to false and stop; otherwise
shift the head buffer off the queue, set `isPlaying`, and start it (the
started buffer's `onended` callback is `onEnded` below). -/
def playNextInQueue (s : PlayerState) : PlayerState :=
  match s.audioQueue, s.hasPlaybackContext with
  | [], _ => { s with isPlaying := false }
  | _ :: _, false => { s with isPlaying := false }
  | b :: rest, true =>
    { s with audioQueue := rest, isPlaying := true, started := s.started ++ [b] }

/-- `playAudio` (useWebRTC.ts lines 220-273): lazily create the playback
context, push the decoded buffer onto the queue, and call
`playNextInQueue` only when not already playing. -/
def playAudio (s : PlayerState) (b : Nat) : PlayerState :=
  let s1 := { s with hasPlaybackContext := true }
  let s2 := { s1 with audioQueue := s1.audioQueue ++ [b] }
  if s2.isPlaying = true then s2 else playNextInQueue s2

/-- The `source.onended` completion callback (useWebRTC.ts lines 298-304):
chains into `playNextInQueue`. -/
def onEnded (s : PlayerState) : PlayerState :=
  playNextInQueue s

/-- Clamp a capture sample to [-1, 1] (useWebRTC.ts line 142:
`Math.max(-1, Math.min(1, inputData[i]))`). Samples are modelled as exact
rationals; every value appearing in the claims (0.5, ±1, 32767) is exactly
representable in the source's floats, so the rational model is faithful. -/
def clampSample (x : ℚ) : ℚ :=
  max (-1) (min 1 x)

/-- JavaScript's ToInteger truncation toward zero, applied when a float is
stored into an `Int16Array` element. -/
def truncTowardZero (q : ℚ) : ℤ :=
  if q < 0 then -(⌊-q⌋) else ⌊q⌋

/-- Signed 16-bit wrap-around applied by `Int16Array` element stores. -/
def toInt16 (z : ℤ) : ℤ :=
  (z + 32768) % 65536 - 32768

/-- The capture encoder (useWebRTC.ts lines 141-144):
`int16Data[i] = Math.max(-1, Math.min(1, inputData[i])) * 32767`. -/
def encodeSample (x : ℚ) : ℤ :=
  toInt16 (truncTowardZero (clampSample x * 32767))

/-- The playback decoder (useWebRTC.ts line 250):
`float32Array[i] = int16Array[i] / 32768.0`. -/
def decodeSample (z : ℤ) : ℚ :=
  (z : ℚ) / 32768

/-- An observable resource-release action performed by `disconnect`. -/
inductive ReleaseStep where
  | processorDisconnected
  | captureContextClosed
  | trackStopped (t : Nat)
  | playbackContextClosed
  | socketClosed
deriving DecidableEq

/-- The session's resource state, as held in the hook's refs. `some`
means the ref currently holds a live resource; media-stream tracks are a
list of `Nat` labels. -/
structure SessionState where
  scriptProcessor : Option Nat := none
  captureContext : Option Nat := none
  stream : Option (List Nat) := none
  playbackContext : Option Nat := none
  ws : Option Nat := none
  audioQueue : List Nat := []
  isPlaying : Bool := false
  processedItems : List String := []
  isConnected : Bool := true
deriving DecidableEq

/-- `disconnect` (useWebRTC.ts lines 177-207): each ref is released and
nulled only if currently non-null (processor.disconnect, context.close,
track.stop per track, playback context.close, ws.close); then the queue,
playing flag and seen set are cleared and the session is marked
disconnected. Returns the new state together with the list of release
actions performed, in order. -/
def disconnect (s : SessionState) : SessionState × List ReleaseStep :=
  let a1 := if s.scriptProcessor.isSome then [ReleaseStep.processorDisconnected] else []
  let a2 := if s.captureContext.isSome then [ReleaseStep.captureContextClosed] else []
  let a3 := match s.stream with
    | some ts => ts.map ReleaseStep.trackStopped
    | none => []
  let a4 := if s.playbackContext.isSome then [ReleaseStep.playbackContextClosed] else []
  let a5 := if s.ws.isSome then [ReleaseStep.socketClosed] else []
  (⟨none, none, none, none, none, [], false, [], false⟩, a1 ++ a2 ++ a3 ++ a4 ++ a5)

/-! Concrete fixtures used by the theorems below. -/

/-- The user item of the spec's end-to-end scenario, exactly as written
there: `{item_id:"1", role:"user", content:[{type:"text", text:"Hi"}]}`
(note: no `type:"message"` tag on the item itself). -/
def item1 : HistoryItem :=
  { item_id := some "1", role := some "user",
    content := some [{ type := some "text", text := some "Hi" }] }

/-- The assistant item of the spec's end-to-end scenario:
`{item_id:"2", role:"assistant", content:[{type:"audio", transcript:"Hello there"}]}`. -/
def item2 : HistoryItem :=
  { item_id := some "2", role := some "assistant",
    content := some [{ type := some "audio", transcript := some "Hello there" }] }

/-- `item1` additionally tagged `type:"message"`, as `processHistoryItem`
requires. -/
def item1m : HistoryItem :=
  { item1 with type := some "message" }

/-- `item2` additionally tagged `type:"message"`. -/
def item2m : HistoryItem :=
  { item2 with type := some "message" }

/-- A well-formed message item with two plain-text content parts. -/
def itemAB : HistoryItem :=
  { item_id := some "7", type := some "message", role := some "user",
    content := some [{ text := some "a" }, { text := some "b" }] }

/-- A `history_updated` payload carrying a present-but-empty
`last_assistant_message` together with a processable history array. -/
def evC1 : WsData :=
  { type := "history_updated", last_assistant_message := some "",
    history := some [item1m] }

/-- A `history_added` payload carrying `itemAB`. -/
def evC2 : WsData :=
  { type := "history_added", item := some itemAB }

/-- The spec's end-to-end `history_loaded` payload, items exactly as the
spec writes them. -/
def evC4 : WsData :=
  { type := "history_loaded", history := some [item1, item2] }

/-- The end-to-end `history_loaded` payload with the items additionally
tagged `type:"message"`. -/
def evC4m : WsData :=
  { type := "history_loaded", history := some [item1m, item2m] }

/-- A `history_added` chat event carrying `itemAB`. -/
def evC3 : AgentEvent :=
  { type := "history_added", item := some itemAB }

/-- The three streaming events of the delta-accumulation scenario. -/
def evD1 : AgentEvent :=
  { type := "raw_model_event", raw_event := some "transcript_delta", delta := some "Hel" }

/-- Second delta event of the delta-accumulation scenario. -/
def evD2 : AgentEvent :=
  { type := "raw_model_event", raw_event := some "transcript_delta", delta := some "lo" }

/-- The finalizing event of the delta-accumulation scenario: a
`transcript_done` carrying no transcript field. -/
def evD3 : AgentEvent :=
  { type := "raw_model_event", raw_event := some "transcript_done" }

/-! Theorems settling the claims. -/

/-- Claim C1, counterexample: the payload `evC1` carries a non-absent
`last_assistant_message` (the empty string) together with a history array,
yet the handler does not emit one Message taken from that field with the
history unscanned — it scans the history (emitting its item and marking it
seen) because the code tests JavaScript truthiness, not presence. -/
theorem c1_counterexample :
    ¬ ((wsHandle [] evC1).1 = [] ∧ (wsHandle [] evC1).2 = [⟨"ai", ""⟩]) := by
  decide

/-- Claim C1, amended: for every `history_updated` payload whose
`last_assistant_message` is present and non-EMPTY, the handler emits
exactly one Message with that text, and the history array is not scanned
(the seen set is returned unchanged). -/
theorem c1_last_assistant_priority (seen : List String) (lam : String)
    (hist : Option (List HistoryItem)) (h : lam ≠ "") :
    wsHandle seen
      { type := "history_updated", last_assistant_message := some lam, history := hist }
      = (seen, [⟨"ai", lam⟩]) := by
  simp [wsHandle, strTruthy, h]

/-- Witness for `c1_last_assistant_priority` at a concrete payload. -/
theorem c1_witness :
    ("yo" : String) ≠ "" ∧
    wsHandle []
      { type := "history_updated", last_assistant_message := some "yo",
        history := some [item1m] }
      = ([], [⟨"ai", "yo"⟩]) :=
  ⟨by decide, c1_last_assistant_priority [] "yo" (some [item1m]) (by decide)⟩

/-- Claim C2, counterexample: delivering the same `history_added` event
(`itemAB`, which has an `item_id` and two text parts) twice does not yield
exactly one Message — the first delivery already yields two (one per
content part), the second none. -/
theorem c2_counterexample :
    ¬ (((wsHandle [] evC2).2 ++ (wsHandle (wsHandle [] evC2).1 evC2).2).length = 1) := by
  decide

/-- Claim C2, amended: delivering the same `history_added` event twice is
idempotent — the second delivery emits no Message and leaves the seen set
unchanged; when the item's id is truthy, the id is in the seen set after
the first delivery. A single delivery, however, emits one Message per
non-blank content part, not exactly one per item. -/
theorem c2_second_delivery_ignored (seen : List String) (it : HistoryItem) :
    wsHandle (wsHandle seen { type := "history_added", item := some it }).1
        { type := "history_added", item := some it }
      = ((wsHandle seen { type := "history_added", item := some it }).1, []) ∧
    (strTruthy it.item_id = true →
      (wsHandle seen { type := "history_added", item := some it }).1.contains
        (it.item_id.getD "") = true) := by
  by_cases hT : strTruthy it.item_id = true
  · by_cases hC : it.item_id.getD "" ∈ seen
    · refine ⟨?_, fun _ => ?_⟩ <;> simp [wsHandle, hT, hC]
    · refine ⟨?_, fun _ => ?_⟩ <;> simp [wsHandle, hT, hC]
  · refine ⟨?_, fun hT2 => absurd hT2 hT⟩
    simp [wsHandle, hT]

/-- Witness for `c2_second_delivery_ignored` at the concrete `evC2`. -/
theorem c2_witness :
    wsHandle (wsHandle [] evC2).1 evC2 = ((wsHandle [] evC2).1, []) ∧
    (wsHandle [] evC2).1.contains (itemAB.item_id.getD "") = true :=
  ⟨(c2_second_delivery_ignored [] itemAB).1,
   (c2_second_delivery_ignored [] itemAB).2 (by decide)⟩

/-- `addMessage` appends at most one message. -/
theorem addMessage_length_le (st : ChatState) (r c : String) :
    (addMessage st r c).messages.length ≤ st.messages.length + 1 := by
  unfold addMessage
  split <;> simp

/-- Claim C3, counterexample: for the two-part item `itemAB`, text
extraction in the hook (`processHistoryItem`) produces two Messages, not
at most one — the parts are not concatenated. -/
theorem c3_counterexample : ¬ ((processHistoryItem itemAB).length ≤ 1) := by
  decide

/-- Claim C3, amended: the hook's `processHistoryItem` emits one Message
per content part whose transcript (preferred) or text is non-blank — so at
most one Message per part, an item all of whose parts extract to nothing
yields no Message, and there is no per-item concatenation. The chat
component's `history_added` extraction does produce at most one Message
per event, and an assistant item whose space-joined extract is blank after
trimming yields no Message (though an emitted joined extract is not itself
trimmed). -/
theorem c3_extraction (item : HistoryItem) (stale st : ChatState) (e : AgentEvent)
    (h : e.type = "history_added") :
    (processHistoryItem item).length ≤ (item.content.getD []).length ∧
    ((∀ c ∈ item.content.getD [], processContent (itemRole item) c = none) →
      processHistoryItem item = []) ∧
    (handleAgentEvent stale st e).messages.length ≤ st.messages.length + 1 ∧
    (item.role = some "assistant" → jsTrim (joinExtracts (item.content.getD [])) = "" →
      handleAgentEvent stale st { type := "history_added", item := some item } = st) := by
  refine ⟨?_, ?_, ?_, ?_⟩
  · unfold processHistoryItem
    split
    · exact List.length_filterMap_le _ _
    · simp
  · intro hall
    unfold processHistoryItem
    split
    · exact List.filterMap_eq_nil_iff.mpr hall
    · rfl
  · have key : ∀ r c, (addMessage st r c).messages.length ≤ st.messages.length + 1 :=
      addMessage_length_le st
    simp only [handleAgentEvent, h]
    simp only [String.reduceEq, reduceIte]
    repeat' split
    all_goals first | simpa using key _ _ | simp
  · intro hrole htrim
    cases hcon : item.content with
    | none => simp [handleAgentEvent, hrole, hcon, strTruthy]
    | some parts =>
      rw [hcon] at htrim
      simp only [Option.getD] at htrim
      simp [handleAgentEvent, hrole, hcon, strTruthy, htrim]

/-- Witness for `c3_extraction` at the concrete item `itemAB` and event
`evC3`, with the mounted handler's stale snapshot. -/
theorem c3_witness :
    evC3.type = "history_added" ∧
    (processHistoryItem itemAB).length ≤ (itemAB.content.getD []).length ∧
    (handleAgentEvent chatInit chatInit evC3).messages.length ≤ chatInit.messages.length + 1 :=
  ⟨rfl, (c3_extraction itemAB chatInit chatInit evC3 rfl).1,
   (c3_extraction itemAB chatInit chatInit evC3 rfl).2.2.1⟩

/-- Claim C4, counterexample: delivering the spec's end-to-end history
array (items exactly as the spec writes them, with no `type:"message"`
tag) via `history_loaded` does not yield the two Messages with both ids
marked seen — the handler emits nothing, because `processHistoryItem`
requires `item.type === "message"`. -/
theorem c4_counterexample :
    ¬ ((wsHandle [] evC4).2 = [⟨"user", "Hi"⟩, ⟨"ai", "Hello there"⟩] ∧
       (wsHandle [] evC4).1.contains "1" = true ∧
       (wsHandle [] evC4).1.contains "2" = true) := by
  decide

/-- Claim C4, amended: with the two items additionally tagged
`type:"message"`, the `history_loaded` delivery yields exactly the
Messages (user, "Hi") then (ai, "Hello there") in that order — but the
item ids are NOT added to the Seen-Item-Id set: the `history_loaded`
branch performs no id tracking (the returned seen set is still empty). -/
theorem c4_history_loaded_scenario :
    wsHandle [] evC4m = ([], [⟨"user", "Hi"⟩, ⟨"ai", "Hello there"⟩]) := by
  decide

/-- Claim C5 (the code contradicts it): delivered to the mounted
component, the deltas "Hel" and "lo" do accumulate "Hello" into the live
Pending Partial Message (functional state updaters), but the
`transcript_done` with no transcript field evaluates
`event.transcript || currentAssistantMessage` against the STALE
mount-time snapshot, whose pending text is "" (AgentChat.tsx line 272) —
so no Message is emitted and the pending text is never cleared, where
the claim (and the spec's finalize rule) require exactly one Message
"Hello" and an empty pending text afterwards. -/
theorem c5_stale_finalize :
    (handleAgentEvent chatInit
        (handleAgentEvent chatInit (handleAgentEvent chatInit chatInit evD1) evD2)
        evD3).messages = [] ∧
    (handleAgentEvent chatInit
        (handleAgentEvent chatInit (handleAgentEvent chatInit chatInit evD1) evD2)
        evD3).currentAssistantMessage = "Hello" := by
  constructor <;> rfl

/-- Claim C6: enqueuing buffers A, B, C into an idle player starts them in
order A, B, C driven purely by completion-callback chaining; when a
completion finds the queue empty the playing flag drops to false, and the
next enqueue restarts playback; and an enqueue while already playing never
starts a buffer (completion is the sole trigger for dequeue-and-start). -/
theorem c6_playback_ordering (A B C D : Nat) (s : PlayerState) (h : s.isPlaying = true) :
    (playAudio s A).started = s.started ∧
    (onEnded (onEnded (onEnded (playAudio (playAudio (playAudio ⟨[], false, false, []⟩ A) B) C)))).started
      = [A, B, C] ∧
    (onEnded (onEnded (onEnded (playAudio (playAudio (playAudio ⟨[], false, false, []⟩ A) B) C)))).isPlaying
      = false ∧
    (playAudio (onEnded (onEnded (onEnded (playAudio (playAudio (playAudio ⟨[], false, false, []⟩ A) B) C)))) D).started
      = [A, B, C, D] ∧
    (playAudio (onEnded (onEnded (onEnded (playAudio (playAudio (playAudio ⟨[], false, false, []⟩ A) B) C)))) D).isPlaying
      = true := by
  refine ⟨?_, rfl, rfl, rfl, rfl⟩
  simp [playAudio, h]

/-- Witness for `c6_playback_ordering` at a concrete playing state. -/
theorem c6_witness :
    (⟨[0], true, true, []⟩ : PlayerState).isPlaying = true ∧
    (playAudio (⟨[0], true, true, []⟩ : PlayerState) 1).started
      = (⟨[0], true, true, []⟩ : PlayerState).started :=
  ⟨rfl, (c6_playback_ordering 1 2 3 4 ⟨[0], true, true, []⟩ rfl).1⟩

/-- Claim C7: encoding the sample 0.5 and decoding it lands within one
quantization step (1/32768) of 0.5, and the samples +1 and -1 encode to
32767 and -32767 — inside the signed 16-bit range, so the wrap-around in
`toInt16` is the identity (no overflow). -/
theorem c7_codec_roundtrip :
    |decodeSample (encodeSample (1/2)) - 1/2| ≤ 1/32768 ∧
    truncTowardZero (clampSample 1 * 32767) = 32767 ∧
    truncTowardZero (clampSample (-1) * 32767) = -32767 ∧
    encodeSample 1 = 32767 ∧
    encodeSample (-1) = -32767 ∧
    -32768 ≤ encodeSample 1 ∧ encodeSample 1 ≤ 32767 ∧
    -32768 ≤ encodeSample (-1) ∧ encodeSample (-1) ≤ 32767 := by
  have hf1 : (⌊(1/2 : ℚ) * 32767⌋ : ℤ) = 16383 := by
    rw [Int.floor_eq_iff]
    constructor <;> norm_num
  have hf2 : (⌊(32767 : ℚ)⌋ : ℤ) = 32767 := by
    rw [Int.floor_eq_iff]
    constructor <;> norm_num
  have hc : clampSample (1/2 : ℚ) = 1/2 := by
    unfold clampSample
    rw [min_eq_right (by norm_num : (1:ℚ)/2 ≤ 1)]
    rw [max_eq_right (by norm_num : (-1:ℚ) ≤ 1/2)]
  have hc1 : clampSample (1 : ℚ) = 1 := by
    unfold clampSample
    rw [min_self]
    rw [max_eq_right (by norm_num : (-1:ℚ) ≤ 1)]
  have hcm1 : clampSample (-1 : ℚ) = -1 := by
    unfold clampSample
    rw [min_eq_right (by norm_num : (-1:ℚ) ≤ 1)]
    rw [max_self]
  have ht : truncTowardZero ((1/2 : ℚ) * 32767) = 16383 := by
    unfold truncTowardZero
    rw [if_neg (by norm_num : ¬ ((1/2 : ℚ) * 32767 < 0))]
    exact hf1
  have ht1 : truncTowardZero ((1 : ℚ) * 32767) = 32767 := by
    unfold truncTowardZero
    rw [if_neg (by norm_num : ¬ ((1 : ℚ) * 32767 < 0))]
    rw [one_mul]
    exact hf2
  have htm1 : truncTowardZero ((-1 : ℚ) * 32767) = -32767 := by
    unfold truncTowardZero
    rw [if_pos (by norm_num : ((-1 : ℚ) * 32767 < 0))]
    have hn : -((-1 : ℚ) * 32767) = 32767 := by norm_num
    rw [hn, hf2]
  have henc : encodeSample (1/2 : ℚ) = 16383 := by
    unfold encodeSample
    rw [hc, ht]
    unfold toInt16
    decide
  have henc1 : encodeSample (1 : ℚ) = 32767 := by
    unfold encodeSample
    rw [hc1, ht1]
    unfold toInt16
    decide
  have hencm1 : encodeSample (-1 : ℚ) = -32767 := by
    unfold encodeSample
    rw [hcm1, htm1]
    unfold toInt16
    decide
  refine ⟨?_, by rw [hc1]; exact ht1, by rw [hcm1]; exact htm1, henc1, hencm1,
    by rw [henc1]; norm_num, by rw [henc1], by rw [hencm1]; norm_num, by rw [hencm1]; norm_num⟩
  rw [henc]
  have hd : decodeSample 16383 - 1/2 = -(1/32768) := by
    unfold decodeSample
    norm_num
  rw [hd, abs_neg, abs_of_nonneg (by norm_num : (0:ℚ) ≤ 1/32768)]

/-- Claim C8, counterexample: in the hook's `ws.onmessage` (useWebRTC.ts
line 38, no try/catch) a malformed frame is not logged-and-dropped without
an uncaught exception — processing the single malformed frame raises
(the model's raised-exception count is non-zero). -/
theorem c8_counterexample : ¬ ((wsProcessAll [] [none]).2.2 = 0) := by
  decide

/-- A malformed frame anywhere in the hook's inbound stream leaves the seen
set and the emitted messages as if the frame were absent, and raises
exactly one more uncaught exception. -/
theorem wsProcessAll_drop_malformed (pre : List (Option WsData)) :
    ∀ (seen : List String) (post : List (Option WsData)),
      wsProcessAll seen (pre ++ none :: post)
        = ((wsProcessAll seen (pre ++ post)).1,
           (wsProcessAll seen (pre ++ post)).2.1,
           (wsProcessAll seen (pre ++ post)).2.2 + 1) := by
  induction pre with
  | nil => intro seen post; rfl
  | cons x rest ih =>
    intro seen post
    cases x with
    | none => simp [wsProcessAll, ih]
    | some d => simp [wsProcessAll, ih]

/-- A malformed frame anywhere in the chat component's inbound stream is
dropped with no effect at all (its handler catches the parse error). -/
theorem chatProcess_drop_malformed (pre : List (Option AgentEvent)) :
    ∀ (st : ChatState) (post : List (Option AgentEvent)),
      chatProcess st (pre ++ none :: post) = chatProcess st (pre ++ post) := by
  induction pre with
  | nil => intro st post; rfl
  | cons x rest ih =>
    intro st post
    cases x with
    | none => simp [chatProcess, ih]
    | some e => simp [chatProcess, ih]

/-- Claim C8, amended: a malformed inbound message emits no Message,
leaves the reconciler state unchanged, and processing of subsequent
messages continues unaffected in both handlers; the chat component's
handler catches and logs the parse error, but the hook's handler does not
catch it — each malformed frame raises one uncaught exception out of that
handler invocation (without terminating the stream). -/
theorem c8_malformed_dropped (seen : List String) (pre post : List (Option WsData))
    (st : ChatState) (cpre cpost : List (Option AgentEvent)) :
    (wsProcessAll seen (pre ++ none :: post)).1 = (wsProcessAll seen (pre ++ post)).1 ∧
    (wsProcessAll seen (pre ++ none :: post)).2.1 = (wsProcessAll seen (pre ++ post)).2.1 ∧
    (wsProcessAll seen (pre ++ none :: post)).2.2 = (wsProcessAll seen (pre ++ post)).2.2 + 1 ∧
    chatProcess st (cpre ++ none :: cpost) = chatProcess st (cpre ++ cpost) := by
  refine ⟨?_, ?_, ?_, chatProcess_drop_malformed cpre st cpost⟩ <;>
    rw [wsProcessAll_drop_malformed pre seen post]

/-- Counting any release action in a mapped track-stop list: a track stop
is counted as often as its track occurs, any other action zero times. -/
theorem count_map_trackStopped (l : List Nat) (a : ReleaseStep) :
    List.count a (l.map ReleaseStep.trackStopped)
      = (match a with
         | ReleaseStep.trackStopped t => l.count t
         | _ => 0) := by
  induction l with
  | nil => cases a <;> rfl
  | cons x xs ih => cases a <;> simp [List.count_cons, ih]

/-- Claim C9: `disconnect` is idempotent and safe — a second call releases
nothing and leaves the state unchanged; after one call the session is
closed (socket and all audio resources nulled, queue, playing flag and
seen set cleared, disconnected); and across the two calls each held
resource is released exactly once (a resource not held — e.g. while
`connect`'s permission prompt is still pending — is released zero times,
and each media track exactly once). -/
theorem c9_disconnect_idempotent (s : SessionState) :
    disconnect (disconnect s).1 = ((disconnect s).1, []) ∧
    (disconnect s).1.isConnected = false ∧
    (disconnect s).1.audioQueue = [] ∧
    (disconnect s).1.isPlaying = false ∧
    (disconnect s).1.processedItems = [] ∧
    (disconnect s).1.scriptProcessor = none ∧
    (disconnect s).1.captureContext = none ∧
    (disconnect s).1.stream = none ∧
    (disconnect s).1.playbackContext = none ∧
    (disconnect s).1.ws = none ∧
    (disconnect s).2.count ReleaseStep.processorDisconnected
      = (if s.scriptProcessor.isSome then 1 else 0) ∧
    (disconnect s).2.count ReleaseStep.captureContextClosed
      = (if s.captureContext.isSome then 1 else 0) ∧
    (disconnect s).2.count ReleaseStep.playbackContextClosed
      = (if s.playbackContext.isSome then 1 else 0) ∧
    (disconnect s).2.count ReleaseStep.socketClosed
      = (if s.ws.isSome then 1 else 0) ∧
    (∀ t, (disconnect s).2.count (ReleaseStep.trackStopped t)
      = (s.stream.getD []).count t) := by
  obtain ⟨sp, cc, strm, pc, w, q, ip, pi, ic⟩ := s
  refine ⟨rfl, rfl, rfl, rfl, rfl, rfl, rfl, rfl, rfl, rfl, ?_, ?_, ?_, ?_, ?_⟩ <;>
    cases sp <;> cases cc <;> cases pc <;> cases w <;> cases strm <;>
      simp [disconnect, List.count_append, List.count_cons, count_map_trackStopped]

/-- Claim C10: a `history_updated` payload whose `last_assistant_message`
is present but empty behaves exactly as if the field were absent — no
Message is emitted from the field and the history array is scanned with
seen-set filtering (the short-circuit fires only for non-empty strings). -/
theorem c10_empty_last_message (seen : List String) (hist : Option (List HistoryItem))
    (hs : List HistoryItem) :
    wsHandle seen
        { type := "history_updated", last_assistant_message := some "", history := hist }
      = wsHandle seen
        { type := "history_updated", last_assistant_message := none, history := hist } ∧
    wsHandle seen
        { type := "history_updated", last_assistant_message := some "", history := some hs }
      = scanHistory seen hs :=
  ⟨rfl, rfl⟩

end SeverTest
